import Mathlib

set_option linter.unusedVariables false

/-!
Verification of `debug_toolbar/panels/templates/panel.py` (TemplatesPanel).

The development shallowly embeds the panel's capture handler
`_store_template_info` and the report builder `generate_stats`:

* Python values appearing in a context layer are modelled by `PyVal`,
  classified (`PyCls`) just finely enough for the `isinstance` dispatch in
  the source, together with the observable behaviour of `force_text` on the
  value (`CoerceBehavior`) and whether `pformat` output containing the value
  can be encoded (`pformatSafe`).
* The process-wide SQL "recording" toggle is threaded explicitly as a `Bool`.
* Exceptions are explicit: a handler step returns `Option PyExc` next to the
  mutated state, mirroring Python's mutate-then-raise semantics.
* The ghost field `fmtLog` of the panel state records, in order, the
  composite cache keys for which the layer-formatting code path
  (build `temp_layer` + `pformat`) actually executed; it changes no
  behaviour and exists only to state memoization properties.
-/

namespace TemplatesPanel

/-- Exceptions distinguished by the source. -/
inductive PyExc where
  | sqlQueryTriggered
  | unicodeEncodeError
  | otherExc
  | keyError
  | attributeError
deriving DecidableEq, Repr

/-- Observable behaviour of `force_text` on a value, given the SQL
`recording` state at call time: plain success, success that executes a
database query (raises `SQLQueryTriggered` while recording is disabled),
`UnicodeEncodeError`, or any other exception. -/
inductive CoerceBehavior where
  | value (s : String)
  | dbQuery (s : String)
  | unicodeError
  | raisesOther
deriving DecidableEq, Repr

/-- Classification of a context-layer value for the `isinstance` dispatch in
`_store_template_info`: `django.http.HttpRequest`, Python `list`, Python
`tuple`, `QuerySet`/`RawQuerySet` (with class name, app label and model
name), or anything else. -/
inductive PyCls where
  | httpRequest
  | pylist
  | pytuple
  | queryset (clsName : String) (appLabel : String) (modelName : String)
  | plain
deriving DecidableEq, Repr

/-- A Python value as the sanitizer observes it: its class, its textual
representation, how `force_text` behaves on it, and whether `pformat` output
containing it can be force-text encoded. -/
structure PyVal where
  cls : PyCls
  txt : String
  behavior : CoerceBehavior
  pformatSafe : Bool
deriving DecidableEq, Repr

/-- An entry of `temp_layer`: either a substituted placeholder string or the
original value kept as-is for later pretty-printing. -/
inductive TempVal where
  | str (s : String)
  | orig (v : PyVal)
deriving DecidableEq, Repr

/-- Association-list lookup with decidable key equality (Python `dict`
access; first binding wins). -/
def alookup {α β : Type} [DecidableEq α] : List (α × β) → α → Option β
  | [], _ => none
  | (k, v) :: rest, k2 => if k2 = k then some v else alookup rest k2

/-- Boolean lexicographic order on character lists (Python `str` order over
code points). -/
def charListLe : List Char → List Char → Bool
  | [], _ => true
  | _ :: _, [] => false
  | a :: as, b :: bs => if a = b then charListLe as bs else decide (a < b)

/-- Python `<=` on strings. -/
def strLe (a b : String) : Bool :=
  charListLe a.data b.data

/-- Insert into a `strLe`-sorted list of strings. -/
def insertStr (s : String) : List String → List String
  | [] => [s]
  | t :: rest => if strLe s t then s :: t :: rest else t :: insertStr s rest

/-- Insertion sort by `strLe` (Python `sorted` on strings). -/
def sortStrs : List String → List String
  | [] => []
  | s :: rest => insertStr s (sortStrs rest)

/-- Helper for `dedupKeys`: drop keys already seen. -/
def dedupKeysAux (seen : List String) : List String → List String
  | [] => []
  | k :: rest =>
      if k ∈ seen then dedupKeysAux seen rest
      else k :: dedupKeysAux (k :: seen) rest

/-- Remove duplicates keeping first occurrences (Python `dict` keys are
already unique; this makes the model total on arbitrary entry lists). -/
def dedupKeys (l : List String) : List String :=
  dedupKeysAux [] l

/-- Python `str.lower()` on the characters of a string. -/
def lowerStr (s : String) : String :=
  ⟨s.data.map Char.toLower⟩

/-- Whether one character list starts with another. -/
def listStartsWith : List Char → List Char → Bool
  | _, [] => true
  | [], _ :: _ => false
  | a :: as, b :: bs => if a = b then listStartsWith as bs else false

/-- Python `str.startswith`. -/
def strStartsWith (s pre : String) : Bool :=
  listStartsWith s.data pre.data

/-- Model of `force_text(value)` (panel.py line 121): may raise `SQLQueryTriggered`
when the value's coercion runs a query while recording is disabled. -/
def forceText (b : CoerceBehavior) (recording : Bool) : Except PyExc String :=
  match b with
  | .value s => .ok s
  | .dbQuery s => if recording then .ok s else .error .sqlQueryTriggered
  | .unicodeError => .error .unicodeEncodeError
  | .raisesOther => .error .otherExc

/-- The `try/except/else/finally` block of panel.py lines 118-131: disable
recording, attempt `force_text(value)`, map each exception to its
placeholder, keep the original value on success, and re-enable recording in
the `finally` clause on every exit path. Returns the `temp_layer` entry and
the recording state after the block. -/
def coerceAttempt (v : PyVal) (r0 : Bool) : TempVal × Bool :=
  -- try: recording(False); force_text(value)
  let attempt := forceText v.behavior false
  let entry : TempVal :=
    match attempt with
    | .error .sqlQueryTriggered => .str "<<triggers database query>>"
    | .error .unicodeEncodeError => .str "<<unicode encode error>>"
    | .error _ => .str "<<unhandled exception>>"
    | .ok _ => .orig v
  -- finally: recording(True)
  (entry, true)

/-- The `if/elif` chain of panel.py lines 99-131, for one `(key, value)`
pair of a context layer. Returns the `temp_layer` entry for the key and the
recording state afterwards. -/
def sanitizeEntry (key : String) (v : PyVal) (r : Bool) : TempVal × Bool :=
  match v.cls with
  | .httpRequest => (.str "<<request>>", r)
  | .pylist =>
      if key = "sql_queries" then (.str "<<sql_queries>>", r)
      else coerceAttempt v r
  | .pytuple =>
      if key = "LANGUAGES" then (.str "<<languages>>", r)
      else coerceAttempt v r
  | .queryset clsName appLabel modelName =>
      (.str ("<<" ++ lowerStr clsName ++ " of " ++ appLabel ++ "." ++ modelName ++ ">>"), r)
  | .plain => coerceAttempt v r

/-- The `for key, value in context_layer.items()` loop building `temp_layer`
(panel.py lines 98-131), threading the recording state. -/
def buildTempLayer (entries : List (String × PyVal)) (r : Bool) :
    List (String × TempVal) × Bool :=
  match entries with
  | [] => ([], r)
  | (k, v) :: rest =>
      let (tv, r1) := sanitizeEntry k v r
      let (tl, r2) := buildTempLayer rest r1
      ((k, tv) :: tl, r2)

/-- The composite cache key of panel.py line 96:
`(id(context_layer), tuple(sorted(context_layer.keys())))`. -/
abbrev CKey := Nat × List String

/-- Composite key of a layer given its object identity and entries. -/
def ckeyOf (objId : Nat) (entries : List (String × PyVal)) : CKey :=
  (objId, sortStrs (dedupKeys (entries.map Prod.fst)))

/-- Text that `pformat` shows for a `temp_layer` entry. -/
def reprTempVal : TempVal → String
  | .str s => "'" ++ s ++ "'"
  | .orig v => v.txt

/-- Whether a `temp_layer` entry survives `force_text(pformat(...))`:
placeholder strings always do, kept originals according to the value. -/
def tempValSafe : TempVal → Bool
  | .str _ => true
  | .orig v => v.pformatSafe

/-- Insert into a list of `temp_layer` items sorted by key. -/
def insertPair (p : String × TempVal) :
    List (String × TempVal) → List (String × TempVal)
  | [] => [p]
  | q :: rest => if strLe p.1 q.1 then p :: q :: rest else q :: insertPair p rest

/-- Sort `temp_layer` items by key (`pformat` prints dict items sorted). -/
def sortPairs : List (String × TempVal) → List (String × TempVal)
  | [] => []
  | p :: rest => insertPair p (sortPairs rest)

/-- Model of `force_text(pformat(temp_layer))` (panel.py line 133): renders the dict
with items sorted by key, raising `UnicodeEncodeError` when some kept value
cannot be encoded. -/
def pformatLayer (tl : List (String × TempVal)) : Except PyExc String :=
  if tl.all (fun kv => tempValSafe kv.2) then
    .ok ("\x7b" ++ String.intercalate ", "
      ((sortPairs tl).map (fun kv => "'" ++ kv.1 ++ "': " ++ reprTempVal kv.2)) ++ "\x7d")
  else
    .error .unicodeEncodeError

/-- One element of `context.dicts`: either not mapping-like (no `items`
attribute, panel.py line 89) or a mapping with an object identity (`id()`)
and its entries. -/
inductive Layer where
  | nonMapping
  | mapping (objId : Nat) (entries : List (String × PyVal))
deriving DecidableEq, Repr

/-- A template engine or backend object, as far as `generate_stats` reads
it: its `dirs` attribute. -/
structure Engine where
  dirs : List String
deriving DecidableEq, Repr

/-- A template `Origin`; `name` is `none` when the attribute is `None`. -/
structure Origin where
  name : Option String
deriving DecidableEq, Repr

/-- A template object. `name` is `none` when `template.name` is not a
string (e.g. `None`). `origin` is `none` when the attribute is missing or
falsy; likewise `engine`/`backend` conflate a missing attribute with
`None` (both are falsy for the `or` / raise on `.dirs`). `originName`
models the `origin_name` attribute that `generate_stats` sets. -/
structure TemplateObj where
  name : Option String
  origin : Option Origin
  engine : Option Engine
  backend : Option Engine
  originName : Option String
deriving DecidableEq, Repr

/-- The render `context` as the handler reads it: its `dicts` stack and the
optional `context_processors` attribute (an ordered list of processor
names). -/
structure ContextObj where
  dicts : List Layer
  context_processors : Option (List String)
deriving DecidableEq, Repr

/-- One captured render event, i.e. the `kwargs` dict appended to
`self.templates` (panel.py lines 140-142). -/
structure RenderRecord where
  template : TemplateObj
  context : List String
  context_processors : Option (List String)
deriving DecidableEq, Repr

/-- Cache from composite key to pre-formatted text (`self.seen_contexts`). -/
abbrev SeenMap := List (CKey × String)

/-- Panel instance state. `fmtLog` is a ghost trace of the composite keys
for which the formatting path actually ran (it affects nothing else). -/
structure PanelState where
  templates : List RenderRecord
  seen : SeenMap
  fmtLog : List CKey
deriving DecidableEq, Repr

/-- The state of `__init__`: empty record list, empty cache. -/
def initPanel : PanelState :=
  { templates := [], seen := [], fmtLog := [] }

/-- State threaded through the `for context_layer in context.dicts` loop:
the cache, the `context_list` built so far, the recording toggle and the
ghost format trace. -/
structure LoopState where
  seen : SeenMap
  ctxList : List String
  recState : Bool
  fmtLog : List CKey
deriving DecidableEq, Repr

/-- Model of `seen_contexts[key] = value` (only ever executed when `key` is new). -/
def insertSeen (m : SeenMap) (k : CKey) (v : String) : SeenMap :=
  m ++ [(k, v)]

/-- Panel.py lines 89-138 for a single `context_layer`: skip non-mappings;
compute the composite key; if unseen, build `temp_layer` (threading the
recording toggle) and try to pretty-print it, caching the text on success
and doing nothing (`pass`) on `UnicodeEncodeError`; finally append
`self.seen_contexts[context_layer_id]` to `context_list`, which raises
`KeyError` when the key is still absent. Returns the exception (if one
escapes) and the mutated loop state. -/
def processLayer (ls : LoopState) : Layer → Option PyExc × LoopState
  | .nonMapping => (none, ls)
  | .mapping objId entries =>
      let ckey := ckeyOf objId entries
      match alookup ls.seen ckey with
      | some txt =>
          -- cache hit: the whole formatting block is skipped
          (none, { ls with ctxList := ls.ctxList ++ [txt] })
      | none =>
          let (tl, r1) := buildTempLayer entries ls.recState
          let log1 := ls.fmtLog ++ [ckey]
          match pformatLayer tl with
          | .ok pretty =>
              let seen1 := insertSeen ls.seen ckey pretty
              -- line 138: context_list.append(self.seen_contexts[key])
              match alookup seen1 ckey with
              | some txt =>
                  (none, { seen := seen1, ctxList := ls.ctxList ++ [txt],
                           recState := r1, fmtLog := log1 })
              | none =>
                  (some .keyError, { seen := seen1, ctxList := ls.ctxList,
                                     recState := r1, fmtLog := log1 })
          | .error _ =>
              -- except UnicodeEncodeError: pass  (cache left unset)
              match alookup ls.seen ckey with
              | some txt =>
                  (none, { seen := ls.seen, ctxList := ls.ctxList ++ [txt],
                           recState := r1, fmtLog := log1 })
              | none =>
                  (some .keyError, { seen := ls.seen, ctxList := ls.ctxList,
                                     recState := r1, fmtLog := log1 })

/-- The layer loop; a raised exception aborts the remaining iterations. -/
def foldLayers (ls : LoopState) : List Layer → Option PyExc × LoopState
  | [] => (none, ls)
  | l :: rest =>
      match processLayer ls l with
      | (some e, ls1) => (some e, ls1)
      | (none, ls1) => foldLayers ls1 rest

/-- The skip test of panel.py lines 83-84: `isinstance(template.name,
six.string_types) and template.name.startswith('debug_toolbar/')`. -/
def isToolbarTemplate : Option String → Bool
  | some s => strStartsWith s "debug_toolbar/"
  | none => false

/-- Model of `_store_template_info` (panel.py lines 79-142) for one render event:
skip toolbar-internal templates, process the context layers, and append a
`RenderRecord` holding the template, the built `context_list` and the
context processors. Returns the escaped exception (if any), the panel state
(mutations before the raise persist; the append only happens on normal
completion) and the recording toggle. -/
def storeTemplateInfo (t : TemplateObj) (c : ContextObj) (st : PanelState)
    (r : Bool) : Option PyExc × PanelState × Bool :=
  if isToolbarTemplate t.name then (none, st, r)
  else
    match foldLayers
        { seen := st.seen, ctxList := [], recState := r, fmtLog := st.fmtLog }
        c.dicts with
    | (some e, ls1) =>
        (some e, { st with seen := ls1.seen, fmtLog := ls1.fmtLog }, ls1.recState)
    | (none, ls1) =>
        (none,
         { templates := st.templates ++
             [{ template := t, context := ls1.ctxList,
                context_processors := c.context_processors }],
           seen := ls1.seen, fmtLog := ls1.fmtLog },
         ls1.recState)

/-- One render event as delivered by the `template_rendered` signal. -/
abbrev Event := TemplateObj × ContextObj

/-- Result of delivering a sequence of render events to one panel
instance. `excs` records, per event, the exception (if any) that escaped
the handler for that event. -/
structure RunResult where
  state : PanelState
  recState : Bool
  excs : List (Option PyExc)
deriving DecidableEq, Repr

/-- Deliver a sequence of render events to one panel instance (one
request). The driver models the signal dispatcher's caller: an exception
escaping the handler propagates to the renderer, but the panel instance may
still receive later events within the same request. -/
def runEvents (st : PanelState) (r : Bool) : List Event → RunResult
  | [] => { state := st, recState := r, excs := [] }
  | (t, c) :: rest =>
      match storeTemplateInfo t c st r with
      | (e, st1, r1) =>
          let res := runEvents st1 r1 rest
          { res with excs := e :: res.excs }

/-- One entry of the report's `templates` list: the (mutated, aliased)
template object and the optional `context` field (present exactly when
`SHOW_TEMPLATE_CONTEXT` is set). -/
structure TemplateInfo where
  template : TemplateObj
  context : Option String
deriving DecidableEq, Repr

/-- The structure handed to `record_stats` (panel.py lines 201-205). -/
structure StatsReport where
  templates : List TemplateInfo
  template_dirs : List String
  context_processors : Option (List String)
deriving DecidableEq, Repr

/-- The origin display name of panel.py lines 179-182: the origin's name
when `template.origin` is truthy and `template.origin.name` is truthy, and
the fixed label `'No origin'` otherwise. -/
def originDisplayName (t : TemplateObj) : String :=
  match t.origin with
  | some o =>
      match o.name with
      | some s => if s = "" then "No origin" else s
      | none => "No origin"
  | none => "No origin"

/-- The per-record body of the `generate_stats` loop (panel.py lines
175-188): set `template.origin_name` on the template object itself, and
build the report entry aliasing that same object, with the `context` field
present iff `SHOW_TEMPLATE_CONTEXT` is set. Returns the report entry and
the record as it stands after the mutation. -/
def statsStep (showContext : Bool) (rec0 : RenderRecord) :
    TemplateInfo × RenderRecord :=
  let t1 := { rec0.template with originName := some (originDisplayName rec0.template) }
  let info : TemplateInfo :=
    { template := t1,
      context := if showContext then some (String.intercalate "\n" rec0.context) else none }
  (info, { rec0 with template := t1 })

/-- Model of `engine_backend = getattr(template, 'engine', None) or
getattr(template, 'backend')` followed by `.dirs` (panel.py lines
195-196); raises `AttributeError` when neither is available. -/
def engineDirs (t : TemplateObj) : Except PyExc (List String) :=
  match t.engine with
  | some e => .ok e.dirs
  | none =>
      match t.backend with
      | some b => .ok b.dirs
      | none => .error .attributeError

/-- Model of `generate_stats` (panel.py lines 173-205). `np` is `os.path.normpath`,
kept abstract; `showContext` is `self.toolbar.config['SHOW_TEMPLATE_CONTEXT']`.
Returns the report passed to `record_stats` together with the panel state
after the loop mutated every record's template object. -/
def generateStats (np : String → String) (showContext : Bool)
    (st : PanelState) : Except PyExc (StatsReport × PanelState) :=
  let pairs := st.templates.map (statsStep showContext)
  let template_context := pairs.map Prod.fst
  let newRecords := pairs.map Prod.snd
  let st1 : PanelState := { st with templates := newRecords }
  match st.templates with
  | [] =>
      .ok ({ templates := template_context, template_dirs := [],
             context_processors := none }, st1)
  | first :: _ =>
      match engineDirs first.template with
      | .ok dirs =>
          .ok ({ templates := template_context,
                 template_dirs := dirs.map np,
                 context_processors := first.context_processors }, st1)
      | .error e => .error e

/-! Concrete fixtures used by witnesses and counterexamples. -/

/-- A harmless value whose coercion and pretty-printing both succeed. -/
def vOk : PyVal :=
  { cls := .plain, txt := "1", behavior := .value "1", pformatSafe := true }

/-- A value kept as-is by the coercion branch whose `pformat` output then
cannot be encoded (`force_text(pformat(...))` raises `UnicodeEncodeError`). -/
def vBad : PyVal :=
  { cls := .plain, txt := "u'\\xe9'", behavior := .value "e", pformatSafe := false }

/-- A Python tuple value (kept as-is by the coercion branch). -/
def vTup : PyVal :=
  { cls := .pytuple, txt := "(1, 2)", behavior := .value "(1, 2)", pformatSafe := true }

/-- A mapping layer whose pretty-printed text cannot be encoded. -/
def layerBad : Layer := .mapping 1 [("k", vBad)]

/-- A context holding only `layerBad`. -/
def ctxBad : ContextObj := { dicts := [layerBad], context_processors := none }

/-- A harmless one-layer context. -/
def ctxOk : ContextObj :=
  { dicts := [.mapping 2 [("x", vOk)]], context_processors := some ["django.proc"] }

/-- A Python list value as bound to `sql_queries` by the debug context
processor. -/
def vList : PyVal :=
  { cls := .pylist, txt := "[q1, q2]", behavior := .value "[q1, q2]", pformatSafe := true }

/-- An `HttpRequest` instance. -/
def vReq : PyVal :=
  { cls := .httpRequest, txt := "<WSGIRequest GET />", behavior := .value "<WSGIRequest GET />",
    pformatSafe := true }

/-- A toolbar-internal template. -/
def tToolbar : TemplateObj :=
  { name := some "debug_toolbar/base.html", origin := none, engine := none,
    backend := none, originName := none }

/-- An ordinary application template. -/
def tPage : TemplateObj :=
  { name := some "page.html", origin := some { name := some "/t/page.html" },
    engine := some { dirs := ["/t"] }, backend := none, originName := none }

/-- A template whose `name` attribute is not a string (`None`). -/
def tNameless : TemplateObj :=
  { name := none, origin := none, engine := some { dirs := [] },
    backend := none, originName := none }

/-- A captured record for `tPage` with two cached context blocks. -/
def recOne : RenderRecord :=
  { template := tPage, context := ["c1", "c2"], context_processors := some ["p"] }

/-- Panel state holding exactly `recOne`. -/
def stOne : PanelState :=
  { templates := [recOne], seen := [], fmtLog := [] }

/-- The report `generate_stats` produces from `stOne` with context display
enabled and identity `normpath`. -/
def repOne : StatsReport :=
  { templates := [{ template := { tPage with originName := some "/t/page.html" },
                    context := some "c1\nc2" }],
    template_dirs := ["/t"], context_processors := some ["p"] }

/-- The panel state after `generate_stats` mutated `stOne`'s record. -/
def stOneAfter : PanelState :=
  { templates := [{ template := { tPage with originName := some "/t/page.html" },
                    context := ["c1", "c2"], context_processors := some ["p"] }],
    seen := [], fmtLog := [] }

/-- A loop state whose cache already holds the key of layer
`.mapping 2 [("x", vOk)]`. -/
def lsHit : LoopState :=
  { seen := [((2, ["x"]), "T")], ctxList := [], recState := true, fmtLog := [] }


/-- The memoization invariant of a loop state: the ghost format trace has
no duplicate composite keys and every logged key is cached. -/
def InvL (ls : LoopState) : Prop :=
  ls.fmtLog.Nodup ∧ ∀ k ∈ ls.fmtLog, (alookup ls.seen k).isSome = true

/-- The memoization invariant of a panel state. -/
def InvP (st : PanelState) : Prop :=
  st.fmtLog.Nodup ∧ ∀ k ∈ st.fmtLog, (alookup st.seen k).isSome = true

/-! ## Helper lemmas -/

theorem alookup_append_of_some {α β : Type} [DecidableEq α] (m l : List (α × β))
    (k : α) (w : β) (h : alookup m k = some w) : alookup (m ++ l) k = some w := by
  induction m with
  | nil => simp [alookup] at h
  | cons p rest ih =>
      obtain ⟨k0, v0⟩ := p
      rw [List.cons_append]
      simp only [alookup] at h ⊢
      by_cases hk : k = k0
      · rw [if_pos hk] at h ⊢
        exact h
      · rw [if_neg hk] at h ⊢
        exact ih h

theorem alookup_insertSeen_self (m : SeenMap) (k : CKey) (v : String)
    (h : alookup m k = none) : alookup (insertSeen m k v) k = some v := by
  induction m with
  | nil => simp [insertSeen, alookup]
  | cons p rest ih =>
      obtain ⟨k0, v0⟩ := p
      by_cases hk : k = k0
      · simp [alookup, hk] at h
      · simp only [alookup, if_neg hk] at h
        simp only [insertSeen, List.cons_append, alookup, if_neg hk]
        exact ih h

theorem alookup_insertSeen_mono (m : SeenMap) (k k1 : CKey) (v : String)
    (h : (alookup m k1).isSome = true) :
    (alookup (insertSeen m k v) k1).isSome = true := by
  obtain ⟨w, hw⟩ := Option.isSome_iff_exists.mp h
  rw [insertSeen, alookup_append_of_some m [(k, v)] k1 w hw]
  rfl

/-- Characterization: cache hit skips the formatting block entirely and
appends the cached text. -/
theorem processLayer_hit_aux (ls : LoopState) (objId : Nat)
    (entries : List (String × PyVal)) (txt : String)
    (hs : alookup ls.seen (ckeyOf objId entries) = some txt) :
    processLayer ls (.mapping objId entries) =
      (none, { ls with ctxList := ls.ctxList ++ [txt] }) := by
  simp [processLayer, hs]

/-- Characterization: cache miss with successful pretty-printing caches the
text, appends it, and logs one formatting run. -/
theorem processLayer_miss_ok_aux (ls : LoopState) (objId : Nat)
    (entries : List (String × PyVal)) (pretty : String)
    (hs : alookup ls.seen (ckeyOf objId entries) = none)
    (hp : pformatLayer (buildTempLayer entries ls.recState).1 = .ok pretty) :
    processLayer ls (.mapping objId entries) =
      (none, { seen := insertSeen ls.seen (ckeyOf objId entries) pretty,
               ctxList := ls.ctxList ++ [pretty],
               recState := (buildTempLayer entries ls.recState).2,
               fmtLog := ls.fmtLog ++ [ckeyOf objId entries] }) := by
  rcases hb : buildTempLayer entries ls.recState with ⟨tl, r1⟩
  rw [hb] at hp
  simp [processLayer, hs, hb, hp,
    alookup_insertSeen_self ls.seen (ckeyOf objId entries) pretty hs]

/-- Characterization: cache miss with a pretty-printing encoding failure
leaves the cache unset and raises `KeyError`, still logging the formatting
run. -/
theorem processLayer_miss_err_aux (ls : LoopState) (objId : Nat)
    (entries : List (String × PyVal)) (e : PyExc)
    (hs : alookup ls.seen (ckeyOf objId entries) = none)
    (hp : pformatLayer (buildTempLayer entries ls.recState).1 = .error e) :
    processLayer ls (.mapping objId entries) =
      (some .keyError, { seen := ls.seen, ctxList := ls.ctxList,
                         recState := (buildTempLayer entries ls.recState).2,
                         fmtLog := ls.fmtLog ++ [ckeyOf objId entries] }) := by
  rcases hb : buildTempLayer entries ls.recState with ⟨tl, r1⟩
  rw [hb] at hp
  simp [processLayer, hs, hb, hp]

theorem processLayer_inv (ls ls1 : LoopState) (l : Layer)
    (h : processLayer ls l = (none, ls1)) (hinv : InvL ls) : InvL ls1 := by
  cases l with
  | nonMapping =>
      simp only [processLayer, Prod.mk.injEq, true_and] at h
      rw [← h]
      exact hinv
  | mapping objId entries =>
      rcases hs : alookup ls.seen (ckeyOf objId entries) with - | txt
      · rcases hp : pformatLayer (buildTempLayer entries ls.recState).1 with e | pretty
        · rw [processLayer_miss_err_aux ls objId entries e hs hp] at h
          simp at h
        · rw [processLayer_miss_ok_aux ls objId entries pretty hs hp] at h
          simp only [Prod.mk.injEq, true_and] at h
          rw [← h]
          have hnotin : ckeyOf objId entries ∉ ls.fmtLog := by
            intro hmem
            have := hinv.2 _ hmem
            rw [hs] at this
            simp at this
          constructor
          · simpa [List.nodup_append] using And.intro hinv.1 hnotin
          · intro k hk
            rcases List.mem_append.mp hk with hk1 | hk2
            · exact alookup_insertSeen_mono _ _ _ _ (hinv.2 k hk1)
            · have hke : k = ckeyOf objId entries := by simpa using hk2
              rw [hke, alookup_insertSeen_self _ _ _ hs]
              rfl
      · rw [processLayer_hit_aux ls objId entries txt hs] at h
        simp only [Prod.mk.injEq, true_and] at h
        rw [← h]
        exact hinv

theorem foldLayers_inv (layers : List Layer) :
    ∀ ls ls1, foldLayers ls layers = (none, ls1) → InvL ls → InvL ls1 := by
  induction layers with
  | nil =>
      intro ls ls1 h hinv
      simp only [foldLayers, Prod.mk.injEq, true_and] at h
      rw [← h]
      exact hinv
  | cons l rest ih =>
      intro ls ls1 h hinv
      simp only [foldLayers] at h
      rcases hp : processLayer ls l with ⟨e1, ls2⟩
      rw [hp] at h
      cases e1 with
      | some e => simp at h
      | none => exact ih ls2 ls1 (by simpa using h) (processLayer_inv ls ls2 l hp hinv)

theorem storeTemplateInfo_inv (t : TemplateObj) (c : ContextObj)
    (st st1 : PanelState) (r r1 : Bool)
    (h : storeTemplateInfo t c st r = (none, st1, r1)) (hinv : InvP st) : InvP st1 := by
  unfold storeTemplateInfo at h
  by_cases ht : isToolbarTemplate t.name = true
  · rw [if_pos ht] at h
    simp only [Prod.mk.injEq, true_and] at h
    rw [← h.1]
    exact hinv
  · rw [if_neg ht] at h
    rcases hf : foldLayers
        { seen := st.seen, ctxList := [], recState := r, fmtLog := st.fmtLog }
        c.dicts with ⟨e1, ls1⟩
    rw [hf] at h
    cases e1 with
    | some e => simp at h
    | none =>
        have hls : InvL ls1 :=
          foldLayers_inv c.dicts _ ls1 hf ⟨hinv.1, hinv.2⟩
        simp only [Prod.mk.injEq, true_and] at h
        rw [← h.1]
        exact ⟨hls.1, hls.2⟩

theorem runEvents_inv (events : List Event) :
    ∀ st r, (∀ e ∈ (runEvents st r events).excs, e = none) →
      InvP st → InvP (runEvents st r events).state := by
  induction events with
  | nil => intro st r _ hinv; exact hinv
  | cons ev rest ih =>
      intro st r hall hinv
      obtain ⟨t, c⟩ := ev
      rcases hs : storeTemplateInfo t c st r with ⟨e1, st1, r1⟩
      have hst : runEvents st r ((t, c) :: rest) =
          { runEvents st1 r1 rest with excs := e1 :: (runEvents st1 r1 rest).excs } := by
        simp only [runEvents, hs]
      have he1 : e1 = none := by
        have := hall e1
        rw [hst] at this
        exact this (by simp)
      subst he1
      have hrest : ∀ e ∈ (runEvents st1 r1 rest).excs, e = none := by
        intro e he
        have := hall e
        rw [hst] at this
        exact this (by simp [he])
      have : InvP (runEvents st1 r1 rest).state :=
        ih st1 r1 hrest (storeTemplateInfo_inv t c st st1 r r1 hs hinv)
      rw [hst]
      exact this

theorem generateStats_ok_parts (np : String → String) (sc : Bool)
    (st : PanelState) (rep : StatsReport) (st1 : PanelState)
    (h : generateStats np sc st = .ok (rep, st1)) :
    rep.templates = st.templates.map (fun rec0 => (statsStep sc rec0).1) ∧
    st1.templates = st.templates.map (fun rec0 => (statsStep sc rec0).2) := by
  unfold generateStats at h
  rcases htm : st.templates with - | ⟨first, rest⟩ <;> rw [htm] at h
  · simp only [List.map_nil, Except.ok.injEq, Prod.mk.injEq] at h
    rw [← h.1, ← h.2]
    simp
  · cases hd : engineDirs first.template with
    | ok dirs =>
        simp only [hd, Except.ok.injEq, Prod.mk.injEq] at h
        rw [← h.1, ← h.2]
        simp
    | error e => simp [hd] at h

theorem buildTempLayer_cons (k0 : String) (v0 : PyVal)
    (rest : List (String × PyVal)) (r : Bool) :
    buildTempLayer ((k0, v0) :: rest) r =
      ((k0, (sanitizeEntry k0 v0 r).1) ::
         (buildTempLayer rest (sanitizeEntry k0 v0 r).2).1,
       (buildTempLayer rest (sanitizeEntry k0 v0 r).2).2) := by
  rcases hs : sanitizeEntry k0 v0 r with ⟨tv, r1⟩
  rcases hb : buildTempLayer rest r1 with ⟨tl, r2⟩
  simp [buildTempLayer, hs, hb]

theorem buildTempLayer_fst_cons (k0 : String) (v0 : PyVal)
    (rest : List (String × PyVal)) (r : Bool) :
    (buildTempLayer ((k0, v0) :: rest) r).1 =
      (k0, (sanitizeEntry k0 v0 r).1) ::
        (buildTempLayer rest (sanitizeEntry k0 v0 r).2).1 := by
  rw [buildTempLayer_cons]

/-- The `temp_layer` entry computed for a value does not depend on the
recording state the loop entered with (the coercion branch always disables
it first and the other branches never read it). -/
theorem sanitizeEntry_fst_irrel (key : String) (v : PyVal) (r r1 : Bool) :
    (sanitizeEntry key v r).1 = (sanitizeEntry key v r1).1 := by
  unfold sanitizeEntry
  cases v.cls <;> try rfl
  · by_cases hk : key = "sql_queries"
    · rw [if_pos hk, if_pos hk]
    · rw [if_neg hk, if_neg hk]
      exact rfl
  · by_cases hk : key = "LANGUAGES"
    · rw [if_pos hk, if_pos hk]
    · rw [if_neg hk, if_neg hk]
      exact rfl

/-- In a layer with duplicate-free keys, the `temp_layer` entry at a key is
the sanitized form of the value bound to that key. -/
theorem alookup_buildTempLayer (entries : List (String × PyVal)) :
    ∀ (r : Bool) (key : String) (v : PyVal),
      (entries.map Prod.fst).Nodup → (key, v) ∈ entries →
      alookup (buildTempLayer entries r).1 key =
        some (sanitizeEntry key v true).1 := by
  induction entries with
  | nil => intro r key v _ hmem; cases hmem
  | cons p rest ih =>
      intro r key v hnd hmem
      obtain ⟨k0, v0⟩ := p
      rw [buildTempLayer_fst_cons]
      rcases List.mem_cons.mp hmem with heq | htail
      · injection heq with hk hv
        subst hk
        subst hv
        simp only [alookup, eq_self_iff_true, if_true]
        rw [sanitizeEntry_fst_irrel key v r true]
      · have hk0 : key ≠ k0 := by
          intro hkk
          subst hkk
          have hkm : key ∈ rest.map Prod.fst := by
            exact List.mem_map_of_mem Prod.fst htail
          exact (List.nodup_cons.mp hnd).1 hkm
        simp only [alookup, if_neg hk0]
        exact ih (sanitizeEntry k0 v0 r).2 key v (List.nodup_cons.mp hnd).2 htail

/-! ## Claims -/

/-- C1: the spec states that the capture handler terminates normally on
every render event, dropping the pretty-printed block on an encoding
error. The code does not: when `force_text(pformat(temp_layer))` raises
`UnicodeEncodeError` for a previously unseen layer, the `pass` leaves the
cache unset and line 138 then evaluates `self.seen_contexts[context_layer_id]`,
so a `KeyError` escapes the handler and no record is appended. This theorem
evaluates the code at such an input. -/
theorem c1_keyError_escapes :
    (storeTemplateInfo tPage ctxBad initPanel true).1 = some PyExc.keyError ∧
    (storeTemplateInfo tPage ctxBad initPanel true).2.1.templates = [] := by
  decide

/-- C2: on every exit path of the coercion attempt (success, forbidden
operation signal, encoding error, any other exception) the `finally`
clause re-enables the shared recording signal, so the recording state after
the block is `true` for every value and every initial state. -/
theorem c2_recording_restored (v : PyVal) (r0 : Bool) :
    (coerceAttempt v r0).2 = true := rfl

/-- C3 counterexample: the claim that the formatting routine runs at most
once per distinct composite key within one panel instance fails when
pretty-printing fails: the failed format is not cached, so a second event
carrying the same layer formats it again. The ghost trace of one run
records the same composite key twice. -/
theorem c3_counterexample :
    (runEvents initPanel true [(tPage, ctxBad), (tPage, ctxBad)]).state.fmtLog =
      [(1, ["k"]), (1, ["k"])] ∧
    ¬ (runEvents initPanel true [(tPage, ctxBad), (tPage, ctxBad)]).state.fmtLog.Nodup := by
  decide

/-- C3 (amended): (a) a layer whose composite key is cached appends exactly
the cached text and skips the formatting block entirely (cache, recording
toggle and format trace unchanged); (b) in any run of one panel instance in
which no exception escapes the handler, the formatting routine runs at most
once per distinct composite key. -/
theorem c3_memoization :
    (∀ (ls : LoopState) (objId : Nat) (entries : List (String × PyVal)) (txt : String),
        alookup ls.seen (ckeyOf objId entries) = some txt →
        processLayer ls (.mapping objId entries) =
          (none, { ls with ctxList := ls.ctxList ++ [txt] })) ∧
    (∀ (r : Bool) (events : List Event),
        (∀ e ∈ (runEvents initPanel r events).excs, e = none) →
        (runEvents initPanel r events).state.fmtLog.Nodup) := by
  constructor
  · exact processLayer_hit_aux
  · intro r events hall
    have hinv : InvP initPanel :=
      ⟨List.nodup_nil, fun k hk => absurd hk (List.not_mem_nil k)⟩
    exact (runEvents_inv events initPanel r hall hinv).1

/-- C3 witness: both parts at concrete inputs. -/
theorem c3_witness :
    processLayer lsHit (.mapping 2 [("x", vOk)]) =
      (none, { lsHit with ctxList := lsHit.ctxList ++ ["T"] }) ∧
    (runEvents initPanel true [(tPage, ctxOk), (tPage, ctxOk)]).state.fmtLog.Nodup :=
  ⟨c3_memoization.1 lsHit 2 [("x", vOk)] "T" (by decide),
   c3_memoization.2 true [(tPage, ctxOk), (tPage, ctxOk)] (by decide)⟩

/-- C4 counterexample: the claim speaks of a `sql_queries` value "that is a
sequence", but the code tests `isinstance(value, list)` only: a Python
tuple — also a sequence — bound to `sql_queries` is not replaced by the
placeholder; it falls through to the coercion branch and is kept as-is. -/
theorem c4_counterexample :
    vTup.cls = PyCls.pytuple ∧
    alookup (buildTempLayer [("sql_queries", vTup)] true).1 "sql_queries" =
      some (TempVal.orig vTup) ∧
    some (TempVal.orig vTup) ≠ some (TempVal.str "<<sql_queries>>") := by
  decide

/-- C4 (amended): for every captured context layer (duplicate-free keys)
containing under the key `sql_queries` a value that is a Python `list`,
the redacted layer maps that key to the fixed placeholder
`<<sql_queries>>`. -/
theorem c4_sql_placeholder (entries : List (String × PyVal)) (r : Bool)
    (v : PyVal) (hnd : (entries.map Prod.fst).Nodup)
    (hmem : ("sql_queries", v) ∈ entries) (hcls : v.cls = PyCls.pylist) :
    alookup (buildTempLayer entries r).1 "sql_queries" =
      some (TempVal.str "<<sql_queries>>") := by
  rw [alookup_buildTempLayer entries r "sql_queries" v hnd hmem]
  obtain ⟨cls, txt, beh, safe⟩ := v
  simp only at hcls
  subst hcls
  rfl

/-- C4 witness. -/
theorem c4_witness :
    ([("sql_queries", vList)].map Prod.fst).Nodup ∧
    vList.cls = PyCls.pylist ∧
    alookup (buildTempLayer [("sql_queries", vList)] true).1 "sql_queries" =
      some (TempVal.str "<<sql_queries>>") :=
  ⟨by decide, by decide,
   c4_sql_placeholder [("sql_queries", vList)] true vList (by decide) (by decide) (by decide)⟩

/-- C5: a render event whose template name is a string starting with
`debug_toolbar/` is skipped entirely: the handler returns with the panel
state and recording toggle unchanged and raises nothing, so the template
never appears in the captured record list. -/
theorem c5_toolbar_template_skipped (t : TemplateObj) (c : ContextObj)
    (st : PanelState) (r : Bool) (s : String) (hname : t.name = some s)
    (hpre : strStartsWith s "debug_toolbar/" = true) :
    storeTemplateInfo t c st r = (none, st, r) := by
  have ht : isToolbarTemplate t.name = true := by
    rw [hname]
    simpa [isToolbarTemplate] using hpre
  unfold storeTemplateInfo
  rw [if_pos ht]

/-- C5 witness. -/
theorem c5_witness :
    tToolbar.name = some "debug_toolbar/base.html" ∧
    strStartsWith "debug_toolbar/base.html" "debug_toolbar/" = true ∧
    storeTemplateInfo tToolbar ctxOk initPanel true = (none, initPanel, true) :=
  ⟨rfl, by decide,
   c5_toolbar_template_skipped tToolbar ctxOk initPanel true
     "debug_toolbar/base.html" rfl (by decide)⟩

/-- C6: with zero captured templates, `generate_stats` records a report
with an empty `templates` list, an empty `template_dirs` list and `none`
for `context_processors` (and, the templates list being empty, the panel
state is unchanged). -/
theorem c6_empty_stats (np : String → String) (showContext : Bool)
    (st : PanelState) (h : st.templates = []) :
    generateStats np showContext st =
      .ok ({ templates := [], template_dirs := [], context_processors := none }, st) := by
  obtain ⟨ts, seen, log⟩ := st
  dsimp only at h
  subst h
  rfl

/-- C6 witness. -/
theorem c6_witness :
    generateStats (fun s => s) true initPanel =
      .ok ({ templates := [], template_dirs := [], context_processors := none },
           initPanel) :=
  c6_empty_stats (fun s => s) true initPanel rfl

/-- C7: a captured context layer (duplicate-free keys) holding an
`HttpRequest` instance at some key is redacted to the fixed placeholder
`<<request>>` at that key — never to the request's own text
representation. -/
theorem c7_request_placeholder (entries : List (String × PyVal)) (r : Bool)
    (key : String) (v : PyVal) (hnd : (entries.map Prod.fst).Nodup)
    (hmem : (key, v) ∈ entries) (hcls : v.cls = PyCls.httpRequest) :
    alookup (buildTempLayer entries r).1 key = some (TempVal.str "<<request>>") ∧
    alookup (buildTempLayer entries r).1 key ≠ some (TempVal.orig v) := by
  have h1 : alookup (buildTempLayer entries r).1 key =
      some (TempVal.str "<<request>>") := by
    rw [alookup_buildTempLayer entries r key v hnd hmem]
    obtain ⟨cls, txt, beh, safe⟩ := v
    simp only at hcls
    subst hcls
    rfl
  refine ⟨h1, ?_⟩
  rw [h1]
  simp

/-- C7 witness. -/
theorem c7_witness :
    ([("request", vReq)].map Prod.fst).Nodup ∧
    vReq.cls = PyCls.httpRequest ∧
    alookup (buildTempLayer [("request", vReq)] true).1 "request" =
      some (TempVal.str "<<request>>") ∧
    alookup (buildTempLayer [("request", vReq)] true).1 "request" ≠
      some (TempVal.orig vReq) :=
  ⟨by decide, by decide,
   (c7_request_placeholder [("request", vReq)] true "request" vReq
      (by decide) (by decide) (by decide)).1,
   (c7_request_placeholder [("request", vReq)] true "request" vReq
      (by decide) (by decide) (by decide)).2⟩

/-- C8: for every captured record, the report entry's template carries an
origin display name equal to the origin's name when present (with the
fixed label `No origin` otherwise, per `originDisplayName`), and the
`context` field is the record's cached text blocks joined with newlines
when the `SHOW_TEMPLATE_CONTEXT` flag is set, and absent otherwise. -/
theorem c8_report_entries (np : String → String) (showContext : Bool)
    (st : PanelState) (rep : StatsReport) (st1 : PanelState)
    (hok : generateStats np showContext st = .ok (rep, st1))
    (i : Nat) (hi : i < st.templates.length) :
    ∃ info : TemplateInfo,
      rep.templates.get? i = some info ∧
      info.template.originName =
        some (originDisplayName (st.templates.get ⟨i, hi⟩).template) ∧
      info.context =
        (if showContext then
          some (String.intercalate "\n" (st.templates.get ⟨i, hi⟩).context)
         else none) := by
  obtain ⟨hrep, -⟩ := generateStats_ok_parts np showContext st rep st1 hok
  refine ⟨(statsStep showContext (st.templates.get ⟨i, hi⟩)).1, ?_, rfl, rfl⟩
  rw [hrep, List.get?_map, List.get?_eq_get hi]
  rfl

/-- C8 witness. -/
theorem c8_witness :
    ∃ info : TemplateInfo,
      repOne.templates.get? 0 = some info ∧
      info.template.originName =
        some (originDisplayName (stOne.templates.get ⟨0, by decide⟩).template) ∧
      info.context =
        (if true then
          some (String.intercalate "\n" (stOne.templates.get ⟨0, by decide⟩).context)
         else none) :=
  c8_report_entries (fun s => s) true stOne repOne stOneAfter rfl 0 (by decide)

/-- C9: `generate_stats` mutates every captured record's template object,
setting its `origin_name`; the report's entries alias the mutated objects
(the report entry's template is the very template stored in the panel's
record list after the call), so producing the report is not side-effect
free on the captured records. -/
theorem c9_mutation_aliasing (np : String → String) (sc : Bool)
    (st : PanelState) (rep : StatsReport) (st1 : PanelState)
    (hok : generateStats np sc st = .ok (rep, st1)) :
    st1.templates.length = st.templates.length ∧
    ∀ (i : Nat) (rec0 rec1 : RenderRecord),
      st.templates.get? i = some rec0 → st1.templates.get? i = some rec1 →
      rec1.template =
        { rec0.template with originName := some (originDisplayName rec0.template) } ∧
      ∃ info : TemplateInfo,
        rep.templates.get? i = some info ∧ info.template = rec1.template := by
  obtain ⟨hrep, hst⟩ := generateStats_ok_parts np sc st rep st1 hok
  constructor
  · rw [hst, List.length_map]
  · intro i rec0 rec1 h0 h1
    rw [hst, List.get?_map, h0] at h1
    have h2 : (statsStep sc rec0).2 = rec1 := Option.some.inj h1
    subst h2
    refine ⟨rfl, (statsStep sc rec0).1, ?_, rfl⟩
    rw [hrep, List.get?_map, h0]
    rfl

/-- C9 witness. -/
theorem c9_witness :
    stOneAfter.templates.length = stOne.templates.length ∧
    ∀ (i : Nat) (rec0 rec1 : RenderRecord),
      stOne.templates.get? i = some rec0 →
      stOneAfter.templates.get? i = some rec1 →
      rec1.template =
        { rec0.template with originName := some (originDisplayName rec0.template) } ∧
      ∃ info : TemplateInfo,
        repOne.templates.get? i = some info ∧ info.template = rec1.template :=
  c9_mutation_aliasing (fun s => s) true stOne repOne stOneAfter rfl

/-- C10 counterexample: a render event whose template name is not a string
does not always append a record: with a context layer whose pretty-printed
text cannot be encoded, the handler raises `KeyError` before the append,
so the record list stays empty. -/
theorem c10_counterexample :
    tNameless.name = none ∧
    (storeTemplateInfo tNameless ctxBad initPanel true).1 = some PyExc.keyError ∧
    (storeTemplateInfo tNameless ctxBad initPanel true).2.1.templates = [] := by
  decide

/-- C10 (amended): the toolbar-internal skip applies only to string names:
for every render event whose template name is not a string, whenever the
handler completes without an exception it appends exactly one record for
that event (regardless of any other property of the template). -/
theorem c10_nonstring_name_appends (t : TemplateObj) (c : ContextObj)
    (st : PanelState) (r : Bool) (hname : t.name = none)
    (hok : (storeTemplateInfo t c st r).1 = none) :
    ∃ rec0 : RenderRecord,
      (storeTemplateInfo t c st r).2.1.templates = st.templates ++ [rec0] ∧
      rec0.template = t := by
  have ht : ¬ isToolbarTemplate t.name = true := by
    rw [hname]
    simp [isToolbarTemplate]
  unfold storeTemplateInfo at hok ⊢
  rw [if_neg ht] at hok ⊢
  rcases hf : foldLayers
      { seen := st.seen, ctxList := [], recState := r, fmtLog := st.fmtLog }
      c.dicts with ⟨e1, ls1⟩
  rw [hf] at hok
  cases e1 with
  | some e => exact Option.noConfusion hok
  | none =>
      exact ⟨{ template := t, context := ls1.ctxList,
               context_processors := c.context_processors }, rfl, rfl⟩

/-- C10 witness. -/
theorem c10_witness :
    tNameless.name = none ∧
    ∃ rec0 : RenderRecord,
      (storeTemplateInfo tNameless ctxOk initPanel true).2.1.templates =
        initPanel.templates ++ [rec0] ∧
      rec0.template = tNameless :=
  ⟨rfl, c10_nonstring_name_appends tNameless ctxOk initPanel true rfl (by decide)⟩

end TemplatesPanel
